import Mathlib

/-!
# HomeResourceMonitor — verification of the measurement/control core

A shallow embedding in Lean 4 of the core logic of
`src/HomeResourceMonitor.ino` (an Arduino solar hot-water controller),
together with theorems settling the specification's claims about it.

Modelling conventions:
* C `int` values (16-bit on the AVR target) that provably stay far from the
  16-bit range in the relevant code paths are modelled as `Int`; where the
  source can wrap (the raw temperature decode arithmetic, `millis()`
  subtraction on `unsigned long`) the wrap is made explicit with `% 2^w`.
* C integer division truncates toward zero, so it is modelled by `Int.tdiv`,
  never by Lean's `/` on `Int` (which is Euclidean).
* The floating-point flow computation is modelled over `ℚ`; the float→
  `unsigned int` cast truncates toward zero, which for the non-negative flow
  values is `Int.toNat ∘ Int.floor`.
* The two ring buffers are `Fin 10 → Int` with the shared cursor in `Fin 10`
  (the source keeps `shw_ringbuf_offset` in `0..9` via `%= 10`; `Fin 10`
  addition wraps the same way).
-/

namespace HomeResourceMonitor

/-! ## Boost controller constants (the `#define`s at the top of the sketch) -/

def BOOST_ON_A_START : Nat := 14
def BOOST_ON_A_END : Nat := 20
def BOOST_ON_A_TEMP : Int := 4200

def BOOST_ON_B_START : Nat := 4
def BOOST_ON_B_END : Nat := 7
def BOOST_ON_B_TEMP : Int := 4200

def BOOST_OFF_TEMP : Int := 4600

/-- The two mutable boost globals: `shw_boost_state` (relay requested state,
`true` = ON) and `shw_boost_override` (remote override flag). -/
structure BoostSt where
  shw_boost_state : Bool
  shw_boost_override : Bool
deriving DecidableEq, Repr

/-- The boost switch logic from `loop()` (lines 461-468 of the sketch):

```c
if (avg_shw_vat_temp >= BOOST_OFF_TEMP) {
  shw_boost_state = shw_boost_override = false;
}
else if (shw_boost_override ||
         ((hour >= BOOST_ON_A_START && hour < BOOST_ON_A_END) && avg_shw_vat_temp < BOOST_ON_A_TEMP) ||
         ((hour >= BOOST_ON_B_START && hour < BOOST_ON_B_END) && avg_shw_vat_temp < BOOST_ON_B_TEMP)) {
  shw_boost_state = true;
}
```

`avg_shw_vat_temp` is the smoothed vat temperature (centi-degrees), `hour`
the RTC hour of day. -/
def boostStep (avg_shw_vat_temp : Int) (hour : Nat) (st : BoostSt) : BoostSt :=
  if avg_shw_vat_temp ≥ BOOST_OFF_TEMP then
    { shw_boost_state := false, shw_boost_override := false }
  else if st.shw_boost_override = true ∨
          (BOOST_ON_A_START ≤ hour ∧ hour < BOOST_ON_A_END ∧ avg_shw_vat_temp < BOOST_ON_A_TEMP) ∨
          (BOOST_ON_B_START ≤ hour ∧ hour < BOOST_ON_B_END ∧ avg_shw_vat_temp < BOOST_ON_B_TEMP) then
    { st with shw_boost_state := true }
  else
    st

/-! ## Sanity filter (deviation clamp), from `loop()` lines 434-442 -/

/-- The per-channel deviation clamp: a raw reading may move at most 100
centi-degrees (1.00°C) away from the channel's last accepted average.

```c
if ((temp - last_avg) > 100)       temp = last_avg + 100;
else if ((temp - last_avg) < -100) temp = last_avg - 100;
```
-/
def clampDeviation (r a : Int) : Int :=
  if r - a > 100 then a + 100
  else if r - a < -100 then a - 100
  else r

/-! ## Running-average ring buffers, from `loop()` lines 446-457

Both channels share one cursor `shw_ringbuf_offset`, kept in `0..9` by the
source's `shw_ringbuf_offset++; shw_ringbuf_offset %= SHW_RINGBUF_NUM_ITEMS;`
so it is a `Fin 10` here (`Fin 10` addition wraps identically).

The source assigns `last_avg_* = avg_*` inside the change-report conditional,
but that conditional fires whenever `avg_* != last_avg_*`, and when it does
not fire for that reason the assignment would have been a no-op; so after
every cycle `last_avg_*` equals the freshly computed average, which is how
`tempCycle` models it.  (The `(int)` cast of the `long` average cannot
truncate: each slot is an `int`, so the mean of 10 slots fits an `int`.) -/

def SHW_RINGBUF_NUM_ITEMS : Nat := 10

/-- The mutable temperature-averaging globals of the sketch. -/
structure TempSt where
  shw_collector_temp_ringbuf : Fin 10 → Int
  shw_vat_temp_ringbuf : Fin 10 → Int
  shw_ringbuf_offset : Fin 10
  last_avg_shw_collector_temp : Int
  last_avg_shw_vat_temp : Int

/-- The summation loop `for (i = 0; i < SHW_RINGBUF_NUM_ITEMS; i++) avg += ringbuf[i];`. -/
def ringSum (buf : Fin 10 → Int) : Int :=
  buf 0 + buf 1 + buf 2 + buf 3 + buf 4 + buf 5 + buf 6 + buf 7 + buf 8 + buf 9

/-- `avg /= SHW_RINGBUF_NUM_ITEMS;` — C `long` division truncates toward zero. -/
def ringAvg (buf : Fin 10 → Int) : Int :=
  Int.tdiv (ringSum buf) 10

/-- One temperature-ingestion cycle (`loop()` lines 434-457 plus the
`last_avg_*` updates of lines 535-536): clamp each channel's raw reading
against its last accepted average, store both at the shared cursor, advance
the cursor, recompute both averages. -/
def tempCycle (st : TempSt) (rawCol rawVat : Int) : TempSt :=
  { shw_collector_temp_ringbuf :=
      Function.update st.shw_collector_temp_ringbuf st.shw_ringbuf_offset
        (clampDeviation rawCol st.last_avg_shw_collector_temp),
    shw_vat_temp_ringbuf :=
      Function.update st.shw_vat_temp_ringbuf st.shw_ringbuf_offset
        (clampDeviation rawVat st.last_avg_shw_vat_temp),
    shw_ringbuf_offset := st.shw_ringbuf_offset + 1,
    last_avg_shw_collector_temp :=
      ringAvg (Function.update st.shw_collector_temp_ringbuf st.shw_ringbuf_offset
        (clampDeviation rawCol st.last_avg_shw_collector_temp)),
    last_avg_shw_vat_temp :=
      ringAvg (Function.update st.shw_vat_temp_ringbuf st.shw_ringbuf_offset
        (clampDeviation rawVat st.last_avg_shw_vat_temp)) }

/-- `n` consecutive cycles, each ingesting the same raw pair `(rawCol, rawVat)`. -/
def tempCycleIter (st : TempSt) (rawCol rawVat : Int) : Nat → TempSt
  | 0 => st
  | n + 1 => tempCycle (tempCycleIter st rawCol rawVat n) rawCol rawVat

/-! ## Flow integrator, from `loop()` lines 546-581

The source computes with `float`; the model uses exact `ℚ`.  The only
integer conversion is the assignment of `(flow_rate / 60) * 1000` to the
`unsigned int` `shw_hotwater_flowsensor_flow_ml`, which truncates toward
zero; the value is non-negative, so this is `Int.toNat ∘ Int.floor`. -/

/-- The hall-effect sensor emits ≈5.5 pulses per second per litre/minute. -/
def shw_hotwater_flowsensor_calibrationFactor : ℚ := 11 / 2

/-- Instantaneous flow rate in litres/minute:
`((1000.0 / (millis() - oldtime)) * pulsecount) / calibrationFactor`. -/
def flowRate (elapsed_ms pulsecount : ℕ) : ℚ :=
  1000 / (elapsed_ms : ℚ) * (pulsecount : ℚ) / shw_hotwater_flowsensor_calibrationFactor

/-- Millilitres this cycle: `flow_ml = (flow_rate / 60) * 1000` cast to
`unsigned int`. -/
def flowMl (rate : ℚ) : ℕ :=
  (⌊rate / 60 * 1000⌋).toNat

/-- Cumulative total (`total_ml += flow_ml`) over a list of
`(elapsed_ms, pulsecount)` cycles, starting from the `setup()` value 0. -/
def flowTotal (cycles : List (ℕ × ℕ)) : ℕ :=
  cycles.foldl (fun acc c => acc + flowMl (flowRate c.1 c.2)) 0

/-! ## Inbound UDP command handling, from `loop()` lines 668-688 -/

/-- The inbound packet handler body: set `firsttime = true`, then match the
NUL-terminated payload with `strcmp` against the two recognized commands.

```c
firsttime = true;
if (!strcmp(packetBuffer, "BOOST_ON")) { shw_boost_override = true; ... }
else if (!strcmp(packetBuffer, "BOOST_OFF")) { shw_boost_override = shw_boost_state = false; ... }
```

Result: the updated boost globals and the updated `firsttime` flag. -/
def processPacket (packetBuffer : String) (st : BoostSt) (_firsttime : Bool) : BoostSt × Bool :=
  if packetBuffer = "BOOST_ON" then
    ({ st with shw_boost_override := true }, true)
  else if packetBuffer = "BOOST_OFF" then
    ({ shw_boost_state := false, shw_boost_override := false }, true)
  else
    (st, true)

/-- The temperature-record emission condition (`loop()` lines 492-496):
`firsttime || avg_col != last_col || avg_vat != last_vat || state changed ||
shw_boostpulses` nonzero. -/
def tempReportCond (firsttime : Bool) (avgCol lastCol avgVat lastVat : Int)
    (bs lbs : Bool) (pulses : ℕ) : Bool :=
  firsttime || decide (avgCol ≠ lastCol) || decide (avgVat ≠ lastVat) ||
    decide (bs ≠ lbs) || decide (pulses ≠ 0)

/-- The flow-record emission condition (`loop()` line 595):
`firsttime || shw_hotwater_flowsensor_flow_rate > 0`. -/
def flowReportCond (firsttime : Bool) (rate : ℚ) : Bool :=
  firsttime || decide (rate > 0)

/-! ## Sensor Reader (`getSaneCurrentTemp`, lines 219-268)

The CRC is `OneWire::crc8`, the Dallas/Maxim CRC-8 (polynomial `0x8C`,
reflected) from the external OneWire library, modelled bit-for-bit from that
library's shift-register implementation.  A sensor attempt is modelled by the
9-byte frame the DS18S20 would deliver; `frames i` is the frame attempt `i`
would read. -/

/-- One shift-register step of the Dallas CRC-8:
`mix = (crc ^ inbyte) & 0x01; crc >>= 1; if (mix) crc ^= 0x8C; inbyte >>= 1;`. -/
def crc8_bit (p : ℕ × ℕ) : ℕ × ℕ :=
  (if (p.1 ^^^ p.2) &&& 1 ≠ 0 then (p.1 >>> 1) ^^^ 0x8C else p.1 >>> 1, p.2 >>> 1)

/-- Fold one byte into the CRC (8 shift-register steps). -/
def crc8_byte (crc b : ℕ) : ℕ :=
  (crc8_bit^[8] (crc, b)).1

/-- `OneWire::crc8(data, len)`: fold the bytes left to right starting from 0. -/
def crc8 (bytes : List ℕ) : ℕ :=
  bytes.foldl crc8_byte 0

/-- The raw-to-centi-degree decode (lines 243-253), faithful to the AVR's
16-bit integer arithmetic:

```c
uint16_t TReading = (data[1] << 8) + data[0];
sign = (TReading & 0x8000);
if (sign) TReading = (TReading ^ 0xffff) + 1;   // 2's comp
tmp = (6 * TReading) + TReading / 4;            // 16-bit int, may wrap
if (sign) tmp = -(tmp);
```

`6 * TReading + TReading / 4` is computed in 16-bit unsigned arithmetic
(wrap mod 2^16) and then converted to the signed 16-bit `tmp` (avr-gcc
wraps modulo 2^16). -/
def decodeTemp (d0 d1 : ℕ) : Int :=
  let TReading := ((d1 <<< 8) + d0) % 65536
  let sign := TReading &&& 0x8000
  let T := if sign ≠ 0 then ((TReading ^^^ 0xffff) + 1) % 65536 else TReading
  let tmpU := (6 * T + T / 4) % 65536
  let tmp : Int := if tmpU < 32768 then (tmpU : Int) else (tmpU : Int) - 65536
  if sign ≠ 0 then -tmp else tmp

/-- The Sensor Reader's range check (line 255):
`if (tmp > -500 && tmp < 10000)` — between -5°C and +100°C, exclusive. -/
def tempInRange (tmp : Int) : Bool :=
  decide (tmp > -500) && decide (tmp < 10000)

/-- One read attempt on a 9-byte frame: CRC-8 over bytes 0-7 must equal
byte 8, then the decoded value must pass the range check; `some value` on
success, `none` on either failure. -/
def readAttempt (frame : List ℕ) : Option Int :=
  if crc8 (frame.take 8) = frame.getD 8 0 then
    if tempInRange (decodeTemp (frame.getD 0 0) (frame.getD 1 0)) then
      some (decodeTemp (frame.getD 0 0) (frame.getD 1 0))
    else none
  else none

/-- The retry loop of `getSaneCurrentTemp`: `fuel` remaining attempts,
`i` the index of the next attempt; first success wins, exhaustion returns
failure with `temp` (the caller's output location) untouched. -/
def gsctLoop (frames : ℕ → List ℕ) (temp : Int) : ℕ → ℕ → Bool × Int
  | 0, _ => (false, temp)
  | fuel + 1, i =>
    match readAttempt (frames i) with
    | some v => (true, v)
    | none => gsctLoop frames temp fuel (i + 1)

/-- `getSaneCurrentTemp(pin, &temp)` (lines 219-268): up to 5 attempts;
returns `(1, decoded)` on the first attempt passing both checks, else
`(0, temp)` with the output location unchanged.  The caller (lines 421-428)
preloads `temp` with the channel's `last_avg_*`, so the failure result reuses
the prior value. -/
def getSaneCurrentTemp (frames : ℕ → List ℕ) (temp : Int) : Bool × Int :=
  gsctLoop frames temp 5 0

/-! ## Cycle gate and inbound packet size -/

/-- Unsigned 32-bit subtraction `millis() - oldtime` (`unsigned long` is
32-bit on AVR). -/
def millisSub (now old : ℕ) : ℕ :=
  (now + (2 ^ 32 - old % 2 ^ 32)) % 2 ^ 32

/-- The per-cycle gate (line 360):
`if ((millis() - shw_hotwater_flowsensor_oldtime) > 1000)`. -/
def cycleGate (now old : ℕ) : Bool :=
  decide (millisSub now old > 1000)

/-- `UDP_TX_PACKET_MAX_SIZE` from the external Arduino Ethernet library
(`EthernetUdp.h`): the size of the local `packetBuffer`. -/
def UDP_TX_PACKET_MAX_SIZE : ℕ := 24

/-- The loop processes an inbound datagram whenever `Udp.parsePacket()`
returned a nonzero size (`if (packetSize)`, line 651). -/
def packetAccepted (packetSize : ℕ) : Bool :=
  packetSize != 0

/-- Whether the NUL write `packetBuffer[packetSize] = '\0'` (line 673) lands
inside the `UDP_TX_PACKET_MAX_SIZE`-byte buffer. -/
def nulWriteIndexOk (packetSize : ℕ) : Bool :=
  decide (packetSize < UDP_TX_PACKET_MAX_SIZE)

/-! ## Theorems -/

/-! ### Helper lemmas (shared; not tied to any single claim) -/

lemma clampDeviation_id_of_close (r a : Int) (h : |r - a| ≤ 100) :
    clampDeviation r a = r := by
  rw [abs_le] at h
  simp only [clampDeviation]
  rw [if_neg (by omega), if_neg (by omega)]

lemma ringAvg_const (v : Int) : ringAvg (fun _ => v) = v := by
  have h : ringSum (fun _ : Fin 10 => v) = 10 * v := by
    simp only [ringSum]; ring
  rw [ringAvg, h]
  exact Int.mul_tdiv_cancel_left v (by norm_num)

lemma fin10_add_one_val (a : Fin 10) : ((a + 1 : Fin 10) : Nat) = ((a : Nat) + 1) % 10 := by
  revert a; decide

lemma tempCycleIter_off (st : TempSt) (rc rv : Int) :
    ∀ k, ((tempCycleIter st rc rv k).shw_ringbuf_offset : Nat) =
      ((st.shw_ringbuf_offset : Nat) + k) % 10 := by
  intro k
  induction k with
  | zero =>
    simp [tempCycleIter, Nat.mod_eq_of_lt st.shw_ringbuf_offset.isLt]
  | succ n ih =>
    have ho := st.shw_ringbuf_offset.isLt
    simp only [tempCycleIter, tempCycle]
    rw [fin10_add_one_val, ih]
    omega

lemma tempCycleIter_buf (st : TempSt) (rc rv : Int)
    (H1 : ∀ k, k < 10 → |rc - (tempCycleIter st rc rv k).last_avg_shw_collector_temp| ≤ 100)
    (H2 : ∀ k, k < 10 → |rv - (tempCycleIter st rc rv k).last_avg_shw_vat_temp| ≤ 100) :
    ∀ k, k ≤ 10 → ∀ j, j < k →
      (tempCycleIter st rc rv k).shw_collector_temp_ringbuf
          ⟨((st.shw_ringbuf_offset : Nat) + j) % 10, Nat.mod_lt _ (by norm_num)⟩ = rc ∧
      (tempCycleIter st rc rv k).shw_vat_temp_ringbuf
          ⟨((st.shw_ringbuf_offset : Nat) + j) % 10, Nat.mod_lt _ (by norm_num)⟩ = rv := by
  intro k
  induction k with
  | zero => intro _ j hj; omega
  | succ n ih =>
    intro hk j hj
    have hn : n < 10 := by omega
    have ho := st.shw_ringbuf_offset.isLt
    have hoff := tempCycleIter_off st rc rv n
    have hcl : clampDeviation rc (tempCycleIter st rc rv n).last_avg_shw_collector_temp = rc :=
      clampDeviation_id_of_close _ _ (H1 n hn)
    have hvl : clampDeviation rv (tempCycleIter st rc rv n).last_avg_shw_vat_temp = rv :=
      clampDeviation_id_of_close _ _ (H2 n hn)
    by_cases hjn : j = n
    · subst hjn
      have hidx : (⟨((st.shw_ringbuf_offset : Nat) + j) % 10,
          Nat.mod_lt _ (by norm_num)⟩ : Fin 10) =
          (tempCycleIter st rc rv j).shw_ringbuf_offset := Fin.ext (by rw [hoff])
      constructor
      · simp only [tempCycleIter, tempCycle, hidx, hcl, Function.update_same]
      · simp only [tempCycleIter, tempCycle, hidx, hvl, Function.update_same]
    · have hvals : ((st.shw_ringbuf_offset : Nat) + j) % 10 ≠
          ((tempCycleIter st rc rv n).shw_ringbuf_offset : Nat) := by
        rw [hoff]; omega
      have hne : (⟨((st.shw_ringbuf_offset : Nat) + j) % 10,
          Nat.mod_lt _ (by norm_num)⟩ : Fin 10) ≠
          (tempCycleIter st rc rv n).shw_ringbuf_offset :=
        Fin.ne_of_val_ne hvals
      obtain ⟨ihc, ihv⟩ := ih (by omega) j (by omega)
      constructor
      · simpa only [tempCycleIter, tempCycle, Function.update_noteq hne] using ihc
      · simpa only [tempCycleIter, tempCycle, Function.update_noteq hne] using ihv

lemma tempCycleIter_buf_full (st : TempSt) (rc rv : Int)
    (H1 : ∀ k, k < 10 → |rc - (tempCycleIter st rc rv k).last_avg_shw_collector_temp| ≤ 100)
    (H2 : ∀ k, k < 10 → |rv - (tempCycleIter st rc rv k).last_avg_shw_vat_temp| ≤ 100) :
    (tempCycleIter st rc rv 10).shw_collector_temp_ringbuf = (fun _ => rc) ∧
    (tempCycleIter st rc rv 10).shw_vat_temp_ringbuf = (fun _ => rv) := by
  have ho := st.shw_ringbuf_offset.isLt
  have key : ∀ i : Fin 10,
      (tempCycleIter st rc rv 10).shw_collector_temp_ringbuf i = rc ∧
      (tempCycleIter st rc rv 10).shw_vat_temp_ringbuf i = rv := by
    intro i
    have hi := i.isLt
    obtain ⟨h1, h2⟩ := tempCycleIter_buf st rc rv H1 H2 10 le_rfl
      (((i : Nat) + 10 - (st.shw_ringbuf_offset : Nat)) % 10) (Nat.mod_lt _ (by norm_num))
    have hidx : (⟨((st.shw_ringbuf_offset : Nat) +
        (((i : Nat) + 10 - (st.shw_ringbuf_offset : Nat)) % 10)) % 10,
        Nat.mod_lt _ (by norm_num)⟩ : Fin 10) = i := Fin.ext (by simp only []; omega)
    rw [hidx] at h1 h2
    exact ⟨h1, h2⟩
  exact ⟨funext fun i => (key i).1, funext fun i => (key i).2⟩

/-- Claim C1: Each control cycle evaluates the boost state machine on the
smoothed vat temperature `T` and the hour `h` with this priority: `T ≥ 4600`
forces state OFF and clears the override unconditionally; otherwise an active
override, or `14 ≤ h < 20` with `T < 4200`, or `4 ≤ h < 7` with `T < 4200`,
turns the state ON (leaving the override flag as it was); otherwise the state
is unchanged — in particular from ON with override clear, `4200 ≤ T < 4600`
and an hour outside both windows, the state stays ON. -/
theorem boostStep_spec (T : Int) (h : Nat) (st : BoostSt) :
    (T ≥ 4600 → boostStep T h st = ⟨false, false⟩) ∧
    (T < 4600 →
      (st.shw_boost_override = true ∨ (14 ≤ h ∧ h < 20 ∧ T < 4200) ∨
        (4 ≤ h ∧ h < 7 ∧ T < 4200)) →
      boostStep T h st = { st with shw_boost_state := true }) ∧
    (T < 4600 →
      ¬(st.shw_boost_override = true ∨ (14 ≤ h ∧ h < 20 ∧ T < 4200) ∨
        (4 ≤ h ∧ h < 7 ∧ T < 4200)) →
      boostStep T h st = st) ∧
    (st.shw_boost_state = true → st.shw_boost_override = false →
      4200 ≤ T → T < 4600 → ¬(14 ≤ h ∧ h < 20) → ¬(4 ≤ h ∧ h < 7) →
      (boostStep T h st).shw_boost_state = true) := by
  refine ⟨?_, ?_, ?_, ?_⟩
  · intro hT
    simp only [boostStep, BOOST_OFF_TEMP]
    rw [if_pos hT]
  · intro hT hcond
    simp only [boostStep, BOOST_OFF_TEMP, BOOST_ON_A_START, BOOST_ON_A_END, BOOST_ON_A_TEMP,
      BOOST_ON_B_START, BOOST_ON_B_END, BOOST_ON_B_TEMP]
    rw [if_neg (by omega), if_pos hcond]
  · intro hT hcond
    simp only [boostStep, BOOST_OFF_TEMP, BOOST_ON_A_START, BOOST_ON_A_END, BOOST_ON_A_TEMP,
      BOOST_ON_B_START, BOOST_ON_B_END, BOOST_ON_B_TEMP]
    rw [if_neg (by omega), if_neg hcond]
  · intro hs hov h1 h2 hA hB
    simp only [boostStep, BOOST_OFF_TEMP, BOOST_ON_A_START, BOOST_ON_A_END, BOOST_ON_A_TEMP,
      BOOST_ON_B_START, BOOST_ON_B_END, BOOST_ON_B_TEMP]
    rw [if_neg (by omega), if_neg (by simp [hov]; omega)]
    exact hs

/-- Witness for C1: a hard-off at `T = 4600` with override set, and the
no-drift case `T = 4300, h = 22` from state ON. -/
theorem boostStep_spec_witness :
    boostStep 4600 0 ⟨true, true⟩ = ⟨false, false⟩ ∧
    (boostStep 4300 22 ⟨true, false⟩).shw_boost_state = true := by
  refine ⟨(boostStep_spec 4600 0 ⟨true, true⟩).1 (by decide), ?_⟩
  exact (boostStep_spec 4300 22 ⟨true, false⟩).2.2.2 rfl rfl (by decide) (by decide)
    (by decide) (by decide)

/-- Claim C2: For every raw sample `r` and last accepted average `a`, the value
fed to the averaging buffer satisfies `|clamped − a| ≤ 100`, and the clamp is
the identity whenever `|r − a| ≤ 100`. -/
theorem clampDeviation_spec (r a : Int) :
    |clampDeviation r a - a| ≤ 100 ∧ (|r - a| ≤ 100 → clampDeviation r a = r) := by
  constructor
  · simp only [clampDeviation]
    split
    · rw [abs_le]; omega
    · split
      · rw [abs_le]; omega
      · rw [abs_le]; omega
  · intro hr
    rw [abs_le] at hr
    simp only [clampDeviation]
    rw [if_neg (by omega), if_neg (by omega)]

/-- Witness for C2 at `r = 50, a = 0` (clamp is the identity there). -/
theorem clampDeviation_spec_witness :
    |clampDeviation 50 0 - 0| ≤ 100 ∧ clampDeviation 50 0 = 50 :=
  ⟨(clampDeviation_spec 50 0).1, (clampDeviation_spec 50 0).2 (by decide)⟩

/-- Claim C3: Each cycle writes both channels' clamped samples at the one shared
write offset, advances the offset by exactly one slot modulo the 10-slot
capacity, and recomputes each channel's average as the truncating integer mean
of all 10 slots; a buffer holding a single value `w` in every slot averages to
`w` exactly; and 10 consecutive cycles ingesting constant raw values with the
clamp never binding leave both averages equal to those raw values. -/
theorem ringbuf_spec (st : TempSt) (rc rv w : Int) :
    ((tempCycle st rc rv).shw_collector_temp_ringbuf st.shw_ringbuf_offset =
        clampDeviation rc st.last_avg_shw_collector_temp ∧
      (tempCycle st rc rv).shw_vat_temp_ringbuf st.shw_ringbuf_offset =
        clampDeviation rv st.last_avg_shw_vat_temp ∧
      (∀ j : Fin 10, j ≠ st.shw_ringbuf_offset →
        (tempCycle st rc rv).shw_collector_temp_ringbuf j =
          st.shw_collector_temp_ringbuf j ∧
        (tempCycle st rc rv).shw_vat_temp_ringbuf j = st.shw_vat_temp_ringbuf j) ∧
      ((tempCycle st rc rv).shw_ringbuf_offset : Nat) =
        ((st.shw_ringbuf_offset : Nat) + 1) % 10 ∧
      (tempCycle st rc rv).last_avg_shw_collector_temp =
        Int.tdiv (ringSum ((tempCycle st rc rv).shw_collector_temp_ringbuf)) 10 ∧
      (tempCycle st rc rv).last_avg_shw_vat_temp =
        Int.tdiv (ringSum ((tempCycle st rc rv).shw_vat_temp_ringbuf)) 10) ∧
    ringAvg (fun _ => w) = w ∧
    ((∀ k, k < 10 → |rc - (tempCycleIter st rc rv k).last_avg_shw_collector_temp| ≤ 100) →
      (∀ k, k < 10 → |rv - (tempCycleIter st rc rv k).last_avg_shw_vat_temp| ≤ 100) →
      (tempCycleIter st rc rv 10).last_avg_shw_collector_temp = rc ∧
      (tempCycleIter st rc rv 10).last_avg_shw_vat_temp = rv) := by
  refine ⟨⟨?_, ?_, ?_, ?_, ?_, ?_⟩, ringAvg_const w, ?_⟩
  · simp [tempCycle]
  · simp [tempCycle]
  · intro j hj
    constructor
    · simp [tempCycle, Function.update_noteq hj]
    · simp [tempCycle, Function.update_noteq hj]
  · exact fin10_add_one_val st.shw_ringbuf_offset
  · simp [tempCycle, ringAvg]
  · simp [tempCycle, ringAvg]
  · intro H1 H2
    obtain ⟨hc, hv⟩ := tempCycleIter_buf_full st rc rv H1 H2
    have e10 : tempCycleIter st rc rv 10 = tempCycle (tempCycleIter st rc rv 9) rc rv := rfl
    constructor
    · have : (tempCycleIter st rc rv 10).last_avg_shw_collector_temp =
          ringAvg ((tempCycleIter st rc rv 10).shw_collector_temp_ringbuf) := by
        rw [e10]; simp [tempCycle]
      rw [this, hc, ringAvg_const]
    · have : (tempCycleIter st rc rv 10).last_avg_shw_vat_temp =
          ringAvg ((tempCycleIter st rc rv 10).shw_vat_temp_ringbuf) := by
        rw [e10]; simp [tempCycle]
      rw [this, hv, ringAvg_const]

/-- Witness for C3: from a zeroed state, ingesting the constant 0 for 10
cycles (the clamp never binds) leaves both averages at 0. -/
theorem ringbuf_spec_witness :
    (tempCycleIter ⟨fun _ => 0, fun _ => 0, 0, 0, 0⟩ 0 0 10).last_avg_shw_collector_temp = 0 ∧
    (tempCycleIter ⟨fun _ => 0, fun _ => 0, 0, 0, 0⟩ 0 0 10).last_avg_shw_vat_temp = 0 :=
  (ringbuf_spec ⟨fun _ => 0, fun _ => 0, 0, 0, 0⟩ 0 0 0).2.2 (by decide) (by decide)

/-- Claim C4: flow integration computes
`flow_rate = (1000 / elapsed_ms) * pulse_count / 5.5` L/min and
`flow_volume = (flow_rate / 60) * 1000` ml truncated to an integer, which is
accumulated; 55 pulses in 1000 ms give exactly 10 L/min and 166 ml, two such
cycles accumulate 332 ml, and zero pulses give exactly zero rate and volume. -/
theorem flow_spec :
    flowRate 1000 55 = 10 ∧
    flowMl (flowRate 1000 55) = 166 ∧
    flowTotal [(1000, 55), (1000, 55)] = 332 ∧
    (∀ e : ℕ, flowRate e 0 = 0) ∧
    flowMl 0 = 0 := by
  have hr : flowRate 1000 55 = 10 := by
    norm_num [flowRate, shw_hotwater_flowsensor_calibrationFactor]
  have hm : flowMl (flowRate 1000 55) = 166 := by
    rw [hr]
    norm_num [flowMl]
    rfl
  refine ⟨hr, hm, ?_, ?_, ?_⟩
  · simp only [flowTotal, List.foldl, Nat.zero_add, hm]
  · intro e
    simp [flowRate]
  · norm_num [flowMl]

/-- Claim C5: a payload of exactly `"BOOST_ON"` sets the override; exactly
`"BOOST_OFF"` clears the override and forces the boost state OFF regardless
of temperature; any other payload changes neither; and any inbound datagram
sets the first-time flag, which makes both outbound report conditions true
unconditionally. -/
theorem processPacket_spec (p : String) (st : BoostSt) (ft : Bool) :
    (p = "BOOST_ON" →
      processPacket p st ft = ({ st with shw_boost_override := true }, true)) ∧
    (p = "BOOST_OFF" →
      processPacket p st ft = (⟨false, false⟩, true)) ∧
    (p ≠ "BOOST_ON" → p ≠ "BOOST_OFF" → processPacket p st ft = (st, true)) ∧
    (processPacket p st ft).2 = true ∧
    (∀ avgCol lastCol avgVat lastVat bs lbs pulses,
      tempReportCond (processPacket p st ft).2 avgCol lastCol avgVat lastVat bs lbs pulses =
        true) ∧
    (∀ rate, flowReportCond (processPacket p st ft).2 rate = true) := by
  have h2 : (processPacket p st ft).2 = true := by
    simp only [processPacket]
    split
    · rfl
    · split
      · rfl
      · rfl
  refine ⟨?_, ?_, ?_, h2, ?_, ?_⟩
  · intro hp
    simp [processPacket, hp]
  · intro hp
    simp [processPacket, hp]
  · intro h1 h0
    simp [processPacket, h1, h0]
  · intro avgCol lastCol avgVat lastVat bs lbs pulses
    rw [h2]
    simp [tempReportCond]
  · intro rate
    rw [h2]
    simp [flowReportCond]

/-- Witness for C5 at each of the three payload classes. -/
theorem processPacket_spec_witness :
    processPacket "BOOST_ON" ⟨false, false⟩ false = (⟨false, true⟩, true) ∧
    processPacket "BOOST_OFF" ⟨true, true⟩ false = (⟨false, false⟩, true) ∧
    processPacket "HELLO" ⟨true, false⟩ false = (⟨true, false⟩, true) :=
  ⟨(processPacket_spec "BOOST_ON" ⟨false, false⟩ false).1 rfl,
   (processPacket_spec "BOOST_OFF" ⟨true, true⟩ false).2.1 rfl,
   (processPacket_spec "HELLO" ⟨true, false⟩ false).2.2.1 (by decide) (by decide)⟩

/-! ### Retry-loop helper lemmas for the Sensor Reader -/

lemma gsctLoop_congr (frames frames' : ℕ → List ℕ) (t : Int) :
    ∀ fuel i, (∀ j, i ≤ j → j < i + fuel → frames j = frames' j) →
      gsctLoop frames t fuel i = gsctLoop frames' t fuel i := by
  intro fuel
  induction fuel with
  | zero => intro i _; rfl
  | succ n ih =>
    intro i h
    simp only [gsctLoop]
    rw [h i le_rfl (by omega)]
    cases readAttempt (frames' i) with
    | some v => rfl
    | none => exact ih (i + 1) fun j h1 h2 => h j (by omega) (by omega)

lemma gsctLoop_success (frames : ℕ → List ℕ) (t v : Int) :
    ∀ fuel i k, k < fuel → readAttempt (frames (i + k)) = some v →
      (∀ j, j < k → readAttempt (frames (i + j)) = none) →
      gsctLoop frames t fuel i = (true, v) := by
  intro fuel
  induction fuel with
  | zero => intro i k hk; omega
  | succ n ih =>
    intro i k hk hv hnone
    simp only [gsctLoop]
    cases k with
    | zero =>
      have hv' : readAttempt (frames i) = some v := by simpa using hv
      rw [hv']
    | succ m =>
      have h0 : readAttempt (frames i) = none := by
        simpa using hnone 0 (by omega)
      rw [h0]
      exact ih (i + 1) m (by omega)
        (by rw [show i + 1 + m = i + (m + 1) by omega]; exact hv)
        (fun j hj => by
          rw [show i + 1 + j = i + (j + 1) by omega]
          exact hnone (j + 1) (by omega))

lemma gsctLoop_fail (frames : ℕ → List ℕ) (t : Int) :
    ∀ fuel i, (∀ j, j < fuel → readAttempt (frames (i + j)) = none) →
      gsctLoop frames t fuel i = (false, t) := by
  intro fuel
  induction fuel with
  | zero => intro i _; rfl
  | succ n ih =>
    intro i h
    simp only [gsctLoop]
    have h0 : readAttempt (frames i) = none := by simpa using h 0 (by omega)
    rw [h0]
    exact ih (i + 1) fun j hj => by
      rw [show i + 1 + j = i + (j + 1) by omega]
      exact h (j + 1) (by omega)

/-- Claim C6: `getSaneCurrentTemp` makes at most 5 read attempts (its result
only depends on the first 5 frames); it succeeds with the decoded value of
the first attempt that passes both the CRC-8 check and the range check
(every accepted value indeed passed both); after 5 failed attempts it
returns failure with the output location untouched, so the caller — which
preloads it with the channel's last accepted average — reuses the prior
value. -/
theorem getSaneCurrentTemp_spec (frames frames' : ℕ → List ℕ) (t v : Int) (i : ℕ) :
    ((∀ j, j < 5 → frames j = frames' j) →
      getSaneCurrentTemp frames t = getSaneCurrentTemp frames' t) ∧
    (i < 5 → readAttempt (frames i) = some v →
      (∀ j, j < i → readAttempt (frames j) = none) →
      getSaneCurrentTemp frames t = (true, v)) ∧
    ((∀ j, j < 5 → readAttempt (frames j) = none) →
      getSaneCurrentTemp frames t = (false, t)) ∧
    (∀ f w, readAttempt f = some w →
      crc8 (f.take 8) = f.getD 8 0 ∧ w = decodeTemp (f.getD 0 0) (f.getD 1 0) ∧
        tempInRange w = true) := by
  refine ⟨?_, ?_, ?_, ?_⟩
  · intro h
    exact gsctLoop_congr frames frames' t 5 0 fun j _ hj => h j (by omega)
  · intro hi hv hnone
    exact gsctLoop_success frames t v 5 0 i hi (by simpa using hv)
      (fun j hj => by simpa using hnone j hj)
  · intro h
    exact gsctLoop_fail frames t 5 0 fun j hj => by simpa using h j hj
  · intro f w hw
    simp only [readAttempt] at hw
    by_cases hcrc : crc8 (f.take 8) = f.getD 8 0
    · rw [if_pos hcrc] at hw
      by_cases hrange : tempInRange (decodeTemp (f.getD 0 0) (f.getD 1 0)) = true
      · rw [if_pos hrange] at hw
        obtain rfl : decodeTemp (f.getD 0 0) (f.getD 1 0) = w := Option.some_injective _ hw
        exact ⟨hcrc, rfl, hrange⟩
      · rw [if_neg hrange] at hw
        exact absurd hw (by simp)
    · rw [if_neg hcrc] at hw
      exact absurd hw (by simp)

set_option maxRecDepth 20000 in
/-- Witness for C6: an all-zero frame passes CRC and range (success with
value 0 on the first attempt); a frame whose trailing CRC byte is wrong on
every attempt leaves the preloaded value 777 untouched. -/
theorem getSaneCurrentTemp_spec_witness :
    getSaneCurrentTemp (fun _ => [0, 0, 0, 0, 0, 0, 0, 0, 0]) 777 = (true, 0) ∧
    getSaneCurrentTemp (fun _ => [0, 0, 0, 0, 0, 0, 0, 0, 1]) 777 = (false, 777) :=
  ⟨(getSaneCurrentTemp_spec (fun _ => [0, 0, 0, 0, 0, 0, 0, 0, 0])
      (fun _ => [0, 0, 0, 0, 0, 0, 0, 0, 0]) 777 0 0).2.1 (by decide) (by decide)
      (fun j hj => absurd hj (Nat.not_lt_zero j)),
   (getSaneCurrentTemp_spec (fun _ => [0, 0, 0, 0, 0, 0, 0, 0, 1])
      (fun _ => [0, 0, 0, 0, 0, 0, 0, 0, 1]) 777 0 0).2.2.1
      (fun j _ => by decide)⟩

/-- Counterexample to claim C7 as stated: an elapsed time of exactly 1000 ms
does not open the per-cycle gate (`millis() - oldtime > 1000` is strict). -/
theorem cycleGate_counterexample :
    millisSub 1000 0 = 1000 ∧ cycleGate 1000 0 = false := by decide

/-- Claim C7 (amended): the per-cycle processing runs on a loop iteration iff
strictly more than 1000 ms of wall-clock time (computed modulo 2^32) have
elapsed since the previous pass; exactly 1000 ms is not sufficient. -/
theorem cycleGate_spec (old e : ℕ) (h : e < 2 ^ 32) :
    cycleGate (old + e) old = true ↔ 1000 < e := by
  have h32 : (2 : ℕ) ^ 32 = 4294967296 := by norm_num
  have hsub : millisSub (old + e) old = e := by
    simp only [millisSub, h32] at *
    omega
  simp only [cycleGate, hsub, decide_eq_true_eq]

/-- Witness for C7 (amended): 1001 ms elapsed opens the gate. -/
theorem cycleGate_spec_witness : cycleGate 1001 0 = true :=
  (cycleGate_spec 0 1001 (by decide)).mpr (by decide)

/-- Counterexample to claim C8 as stated: the boundary values −500 and 10000
centi-degrees are rejected by the range check, not accepted; both are
reachable decodes (raw frames `0xFFB0` and `0x0640`). -/
theorem tempInRange_counterexample :
    decodeTemp 0xb0 0xff = -500 ∧ tempInRange (-500) = false ∧
    decodeTemp 0x40 0x06 = 10000 ∧ tempInRange 10000 = false := by decide

/-- Claim C8 (amended): a decoded centi-degree value is accepted by the
Sensor Reader's range check iff it lies strictly between −500 and 10000,
i.e. in −499..9999 inclusive. -/
theorem tempInRange_spec (t : Int) :
    tempInRange t = true ↔ (-499 ≤ t ∧ t ≤ 9999) := by
  simp only [tempInRange, Bool.and_eq_true, decide_eq_true_eq, gt_iff_lt]
  omega

/-- Claim C10 fails on the code: a 24-byte datagram is accepted by the loop
(`packetSize` nonzero) but the NUL write `packetBuffer[packetSize]` lands at
index 24 of the 24-byte buffer — out of bounds. -/
theorem packetNulWrite_bug :
    packetAccepted 24 = true ∧ nulWriteIndexOk 24 = false := by decide

end HomeResourceMonitor
